import Mathlib

/-!
Verification of the frontend client of the online course feedback
management system (`static/app.js`) and, for the one backend claim, a
spec-modelled feedback repository.

The frontend is embedded shallowly: each event handler is a pure
function from its environment (form field values, the outcome of each
`fetch` call, the result of the `confirm` dialog) to the ordered list of
observable effects it performs (HTTP requests issued, navigations, DOM
writes, notifications, form resets).
-/

namespace AppJs

/-- The JSON body the submit handler serialises: exactly the keys
`courseName`, `rating`, `comments` (`JSON.stringify` of the object
literal at app.js lines 100-104).  All three values are JavaScript
strings: `.value` of a form control is a string and the handler never
converts `rating` to a number. -/
structure SubmitBody where
  courseName : String
  rating : String
  comments : String
deriving DecidableEq, Repr

/-- An HTTP request as issued by `fetch` in app.js: url, method
(`fetch` defaults to GET when no method option is given),
whether `credentials: 'include'` was set, and the JSON body if any. -/
structure Request where
  url : String
  method : String
  credentialsInclude : Bool
  body : Option SubmitBody
deriving DecidableEq, Repr

/-- One feedback item as parsed from the `GET /api/feedback` JSON
response: the fields the renderer reads (`courseName`, `rating`,
`comments`, `date`). -/
structure FeedbackDTO where
  courseName : String
  rating : Int
  comments : String
  date : String
deriving DecidableEq, Repr

/-- An observable effect of a handler, in program order. -/
inductive Effect where
  /-- a `fetch` call was issued (the request leaves the client even
  when the response later fails) -/
  | fetchReq (r : Request)
  /-- `window.location.href = url` -/
  | navigate (url : String)
  /-- `element.innerHTML = html` on the element with the given id -/
  | setHTML (elemId : String) (html : String)
  /-- `element.textContent = s` on the element with the given id -/
  | setText (elemId : String) (s : String)
  /-- `showNotification(message, type)`; `isError` is true for the
  `'error'` type -/
  | notify (message : String) (isError : Bool)
  /-- `feedbackForm.reset()` -/
  | formReset
deriving DecidableEq, Repr

/-- The requests issued within a list of effects, in order. -/
def requestsOf (effs : List Effect) : List Request :=
  effs.filterMap fun e =>
    match e with
    | .fetchReq r => some r
    | _ => none

/-- The call `fetch('/api/check-auth', \x7bcredentials: 'include'\x7d)` (app.js 3-5). -/
def checkAuthRequest : Request := ⟨"/api/check-auth", "GET", true, none⟩

/-- The call `fetch('/api/logout', \x7bmethod: 'POST', credentials: 'include'\x7d)` (app.js 31-34). -/
def logoutRequest : Request := ⟨"/api/logout", "POST", true, none⟩

/-- The call `fetch('/api/feedback', \x7bcredentials: 'include'\x7d)` (app.js 46-48). -/
def getFeedbackRequest : Request := ⟨"/api/feedback", "GET", true, none⟩

/-- The call `fetch('/api/feedback', \x7bmethod: 'POST', ..., body\x7d)` (app.js 94-105). -/
def submitRequest (b : SubmitBody) : Request := ⟨"/api/feedback", "POST", true, some b⟩

/-- The call `fetch('/api/feedback/clear', \x7bmethod: 'DELETE', credentials: 'include'\x7d)` (app.js 126-129). -/
def clearRequest : Request := ⟨"/api/feedback/clear", "DELETE", true, none⟩

/-- The JSON object `/api/check-auth` answers with:
`\x7bauthenticated: bool, email?\x7d`; absent `email` is the empty string
(interpolating `undefined` never happens on the authenticated path). -/
structure CheckAuthData where
  authenticated : Bool
  email : String
deriving DecidableEq, Repr

/-- Outcome of the `fetch`+`response.json()` pair in `checkAuth`:
either parsed JSON data, or a thrown error (network failure or a body
that is not JSON) landing in the `catch`.  `checkAuth` never inspects
`response.ok`. -/
inductive CheckAuthOutcome where
  | json (d : CheckAuthData)
  | err
deriving DecidableEq, Repr

/-- Outcome of the `fetch`+`response.json()` pair in `loadFeedback`:
a parsed array on an ok response, a non-ok response (app.js 50-52
throws), or a thrown fetch/parse error. -/
inductive LoadResult where
  | ok (fbs : List FeedbackDTO)
  | httpErr
  | netErr
deriving DecidableEq, Repr

/-- Outcome of the submit `fetch`: ok response, non-ok response
(app.js 107-109 throws), or thrown fetch error. -/
inductive SubmitResult where
  | ok
  | httpErr
  | netErr
deriving DecidableEq, Repr

/-- Outcome of the clear `fetch`: ok response, non-ok response
(app.js 131-133 throws), or thrown fetch error. -/
inductive ClearResult where
  | ok
  | httpErr
  | netErr
deriving DecidableEq, Repr

/-- JavaScript `String.prototype.trim()`: whitespace stripped at both
ends, modelled character-wise on the string's character list. -/
def jsTrim (s : String) : String :=
  ⟨((s.data.dropWhile Char.isWhitespace).reverse.dropWhile Char.isWhitespace).reverse⟩

/-- Function `escapeHtml` (app.js 75-79).  The source writes `text` into a
detached div's `textContent` and reads back `innerHTML`; the browser's
text-node serialisation escapes `&`, `<` and `>` (quotes are left
alone in text content).  Modelled as that character-wise escape. -/
def escapeHtml (text : String) : String :=
  String.join (text.data.map fun c =>
    if c = '&' then "&amp;"
    else if c = '<' then "&lt;"
    else if c = '>' then "&gt;"
    else String.singleton c)

/-- The template literal mapped over each feedback (app.js 61-68),
with the backtick newlines and indentation reproduced verbatim. -/
def itemHtml (fb : FeedbackDTO) : String :=
  "\n            <div class=\"feedback-item\">\n                <div class=\"feedback-course\">"
    ++ escapeHtml fb.courseName
    ++ "</div>\n                <span class=\"feedback-rating\">Rating: "
    ++ toString fb.rating
    ++ "/5</span>\n                <div class=\"feedback-comments\">"
    ++ escapeHtml fb.comments
    ++ "</div>\n                <div class=\"feedback-date\">Submitted on "
    ++ fb.date
    ++ "</div>\n            </div>\n        "

/-- JavaScript `Array.prototype.join('')` over the mapped items. -/
def joinStrings : List String → String
  | [] => ""
  | s :: rest => s ++ joinStrings rest

/-- The empty-state markup (app.js 57). -/
def emptyStateHtml : String :=
  "<div class=\"empty-state\">No feedback submitted yet. Be the first to share your thoughts!</div>"

/-- The failure markup `loadFeedback` writes in its catch (app.js 71). -/
def loadFailHtml : String :=
  "<div class=\"empty-state\">Failed to load feedback. Please try again.</div>"

/-- Function `checkAuth` (app.js 1-19): fetch `/api/check-auth`; on thrown
error redirect to `/login.html` and yield null; on parsed data,
redirect and yield null unless `data.authenticated`, else yield
`data.email`.  Returns the value `init` sees paired with the effects. -/
def checkAuth (o : CheckAuthOutcome) : Option String × List Effect :=
  match o with
  | .err => (none, [.fetchReq checkAuthRequest, .navigate "/login.html"])
  | .json d =>
    if d.authenticated then
      (some d.email, [.fetchReq checkAuthRequest])
    else
      (none, [.fetchReq checkAuthRequest, .navigate "/login.html"])

/-- Function `loadFeedback` (app.js 42-73): fetch `/api/feedback`; throw on a
non-ok response; on a parsed array write either the empty state or the
joined mapped items into `#feedbackList`; any thrown error writes the
failure message there instead. -/
def loadFeedback (l : LoadResult) : List Effect :=
  match l with
  | .ok fbs =>
    [.fetchReq getFeedbackRequest,
     .setHTML "feedbackList"
       (if fbs.length = 0 then emptyStateHtml
        else joinStrings (fbs.map itemHtml))]
  | .httpErr => [.fetchReq getFeedbackRequest, .setHTML "feedbackList" loadFailHtml]
  | .netErr => [.fetchReq getFeedbackRequest, .setHTML "feedbackList" loadFailHtml]

/-- Function `init` (app.js 21-27): await `checkAuth`; return when it yielded a
falsy value (null, or the empty string); otherwise write the email into
`#userEmail` and run `loadFeedback`. -/
def init (o : CheckAuthOutcome) (l : LoadResult) : List Effect :=
  match checkAuth o with
  | (none, effs) => effs
  | (some email, effs) =>
    if email = "" then effs
    else effs ++ [.setText "userEmail" email] ++ loadFeedback l

/-- The logout click handler (app.js 29-40): POST `/api/logout` with
credentials, then `window.location.href = '/login.html'`; the catch
also navigates there, so both outcomes produce the same effects.
`fetchThrew` tells whether the fetch threw. -/
def logoutHandler (fetchThrew : Bool) : List Effect :=
  if fetchThrew then
    [.fetchReq logoutRequest, .navigate "/login.html"]
  else
    [.fetchReq logoutRequest, .navigate "/login.html"]

/-- The feedback form submit handler (app.js 81-118).  It trims
`courseName` and `comments` but reads `rating` untouched; a JS falsy
test (`!courseName || !rating || !comments`) rejects exactly the empty
strings with an error notification and no fetch; otherwise it POSTs
the body, and on an ok response resets the form, reloads the list and
notifies success, while a thrown error (incl. non-ok response)
notifies failure. -/
def submitHandler (courseNameRaw ratingRaw commentsRaw : String)
    (sres : SubmitResult) (lres : LoadResult) : List Effect :=
  let courseName := jsTrim courseNameRaw
  let rating := ratingRaw
  let comments := jsTrim commentsRaw
  if courseName = "" ∨ rating = "" ∨ comments = "" then
    [.notify "Please fill in all fields" true]
  else
    .fetchReq (submitRequest ⟨courseName, rating, comments⟩) ::
      (match sres with
       | .ok =>
         .formReset :: loadFeedback lres ++ [.notify "Feedback submitted successfully!" false]
       | .httpErr => [.notify "Failed to submit feedback. Please try again." true]
       | .netErr => [.notify "Failed to submit feedback. Please try again." true])

/-- The clear-all click handler (app.js 120-141): return at once when
the confirm dialog is declined; otherwise DELETE
`/api/feedback/clear`, and on an ok response reload the list and
notify success, while a thrown error (incl. non-ok response) notifies
failure. -/
def clearHandler (confirmed : Bool) (cres : ClearResult) (lres : LoadResult) : List Effect :=
  if !confirmed then
    []
  else
    .fetchReq clearRequest ::
      (match cres with
       | .ok => loadFeedback lres ++ [.notify "All feedback cleared!" false]
       | .httpErr => [.notify "Failed to clear feedback. Please try again." true]
       | .netErr => [.notify "Failed to clear feedback. Please try again." true])

/-- True when every request among the effects carries
`credentials: 'include'`. -/
def allCredIncluded (effs : List Effect) : Bool :=
  (requestsOf effs).all (·.credentialsInclude)

/-- True when the check-auth outcome is "not authenticated or the
request/parse threw" — the cases the claim calls a failed or negative
auth check. -/
def authFailed : CheckAuthOutcome → Bool
  | .err => true
  | .json d => !d.authenticated

end AppJs

namespace FeedbackRepo

/-- Modelled from the spec: the backend Feedback Repository
(`app.py`) is not part of the sources; spec section 4.2 describes it.
A feedback row carries an owner, course name, rating, comments and a
creation timestamp. -/
structure FeedbackRec where
  id : Nat
  ownerId : Nat
  courseName : String
  rating : Int
  comments : String
  createdAt : Nat
deriving DecidableEq, Repr

/-- Modelled from the spec: the store holds the rows newest first (the
spec's `list` is "newest first by createdAt" and `create` timestamps at
insertion time, so insertion prepends). -/
abbrev Store := List FeedbackRec

/-- Modelled from the spec: `list(ownerId)` returns the feedback rows
whose `ownerId` matches the caller-supplied owner, newest first. -/
def listFor (store : Store) (ownerId : Nat) : List FeedbackRec :=
  store.filter fun f => f.ownerId = ownerId

/-- Modelled from the spec: `create(ownerId, courseName, rating,
comments)` persists a new row owned by `ownerId` (validation aside,
which is irrelevant to the isolation claim), newest first. -/
def create (store : Store) (ownerId : Nat) (id : Nat) (courseName : String)
    (rating : Int) (comments : String) (createdAt : Nat) : Store :=
  ⟨id, ownerId, courseName, rating, comments, createdAt⟩ :: store

/-- Modelled from the spec: `clearAll(ownerId)` deletes every row owned
by `ownerId` and nothing else. -/
def clearAll (store : Store) (ownerId : Nat) : Store :=
  store.filter fun f => f.ownerId ≠ ownerId

end FeedbackRepo

namespace AppJs

/-- The rendered feedback item exactly as the claim describes the
interpolation: four already-prepared strings substituted verbatim into
the fixed markup of the template literal. -/
def interpolateItem (course rating comments date : String) : String :=
  "\n            <div class=\"feedback-item\">\n                <div class=\"feedback-course\">"
    ++ course
    ++ "</div>\n                <span class=\"feedback-rating\">Rating: "
    ++ rating
    ++ "/5</span>\n                <div class=\"feedback-comments\">"
    ++ comments
    ++ "</div>\n                <div class=\"feedback-date\">Submitted on "
    ++ date
    ++ "</div>\n            </div>\n        "

/-- True when none of the effects is a navigation. -/
def noNavigate (effs : List Effect) : Bool :=
  effs.all fun e =>
    match e with
    | .navigate _ => false
    | _ => true

/-- A rendered feedback item, whatever follows it, starts with the
template's leading newline. -/
theorem itemHtml_append_data_head (fb : FeedbackDTO) (s : String) :
    (itemHtml fb ++ s).data.head? = some '\n' := rfl

/-- The joined rendering of a non-empty feedback array is never the
empty-state markup (their first characters differ). -/
theorem joinStrings_map_ne_emptyState (fb : FeedbackDTO) (rest : List FeedbackDTO) :
    joinStrings ((fb :: rest).map itemHtml) ≠ emptyStateHtml := by
  intro h
  have hd : (joinStrings ((fb :: rest).map itemHtml)).data.head? = some '\n' :=
    itemHtml_append_data_head fb (joinStrings (rest.map itemHtml))
  rw [h] at hd
  exact absurd hd (by decide)

end AppJs


open AppJs FeedbackRepo

/-- C3: a Feedback created under owner A is never returned by `list(B)`
for any other owner B; `list` only ever returns rows owned by its
caller-supplied owner, and `clearAll(B)` leaves every row of a
different owner A in place, so a feedback record is visible and
mutable only through operations scoped to its owning user. -/
theorem c3_owner_isolation (store : Store) (A B fid ts : Nat)
    (cn cm : String) (rt : Int) (hAB : A ≠ B) :
    ((⟨fid, A, cn, rt, cm, ts⟩ : FeedbackRec) ∉
        listFor (create store A fid cn rt cm ts) B) ∧
    (∀ fb ∈ listFor store B, fb.ownerId = B) ∧
    (∀ fb ∈ store, fb.ownerId = A → fb ∈ clearAll store B) := by
  refine ⟨?_, ?_, ?_⟩
  · intro h
    rw [listFor, List.mem_filter] at h
    exact hAB (of_decide_eq_true h.2)
  · intro fb hfb
    rw [listFor, List.mem_filter] at hfb
    exact of_decide_eq_true hfb.2
  · intro fb hfb hA
    rw [clearAll, List.mem_filter]
    exact ⟨hfb, decide_eq_true (hA ▸ hAB)⟩

/-- Witness for C3 at a concrete store: a row created under owner 1 is
not returned by `list 2`. -/
theorem c3_owner_isolation_witness :
    (⟨7, 1, "CS101", 5, "Great course", 3⟩ : FeedbackRec) ∉
      listFor (create [] 1 7 "CS101" 5 "Great course" 3) 2 :=
  (c3_owner_isolation [] 1 2 7 3 "CS101" "Great course" 5 (by decide)).1

/-- C6: on a successful `GET /api/feedback`, `loadFeedback` writes the
empty-state markup into the list if and only if the returned array is
empty; otherwise it writes the concatenation of exactly one rendered
item per returned feedback, in the array's order (each rendered by
`itemHtml`, which displays the item's courseName, rating, comments and
date). -/
theorem c6_render_list (fbs : List FeedbackDTO) :
    (loadFeedback (.ok fbs) =
        [.fetchReq getFeedbackRequest, .setHTML "feedbackList" emptyStateHtml] ↔
      fbs = []) ∧
    (fbs ≠ [] →
      loadFeedback (.ok fbs) =
        [.fetchReq getFeedbackRequest,
         .setHTML "feedbackList" (joinStrings (fbs.map itemHtml))]) ∧
    (fbs.map itemHtml).length = fbs.length := by
  cases fbs with
  | nil => exact ⟨by simp [loadFeedback], by simp, by simp⟩
  | cons f rest =>
    refine ⟨?_, by intro _; simp [loadFeedback], by simp⟩
    constructor
    · intro h
      simp only [loadFeedback, List.length_cons] at h
      rw [if_neg (Nat.succ_ne_zero _)] at h
      injection h with h1 htail
      injection htail with h2 hnil
      injection h2 with helem hhtml
      exact absurd hhtml (joinStrings_map_ne_emptyState f rest)
    · intro h
      exact absurd h (by simp)

/-- Witness for C6 at a concrete one-element array: the rendered list
is the single item, not the empty state. -/
theorem c6_render_list_witness :
    loadFeedback (.ok [⟨"CS101", 5, "Great course", "2025-11-15"⟩]) =
      [.fetchReq getFeedbackRequest,
       .setHTML "feedbackList"
         (joinStrings (([⟨"CS101", 5, "Great course", "2025-11-15"⟩] :
            List FeedbackDTO).map itemHtml))] :=
  (c6_render_list [⟨"CS101", 5, "Great course", "2025-11-15"⟩]).2.1 (by simp)

/-- C7: the logout click handler sends `POST /api/logout` with no body
and then navigates to `/login.html`, whether the fetch succeeds or
throws, so the effects are the same in every case. -/
theorem c7_logout_always_redirects (fetchThrew : Bool) :
    logoutHandler fetchThrew = [.fetchReq logoutRequest, .navigate "/login.html"] ∧
    logoutRequest.method = "POST" ∧ logoutRequest.body = none ∧
    logoutRequest.url = "/api/logout" := by
  cases fetchThrew <;> exact ⟨rfl, rfl, rfl, rfl⟩

/-- C8: every rendered feedback item is exactly the fixed markup with
`escapeHtml` applied to the courseName and the comments before
interpolation, while the rating and the date are interpolated verbatim
with no escaping. -/
theorem c8_escape_refinement (fb : FeedbackDTO) :
    itemHtml fb =
      interpolateItem (escapeHtml fb.courseName) (toString fb.rating)
        (escapeHtml fb.comments) fb.date := rfl

/-- C10: the clear-all handler performs no effect at all (in
particular no network request) when the confirm dialog is declined,
and issues `DELETE /api/feedback/clear` as its first request when the
dialog is accepted. -/
theorem c10_confirm_gate (cres : ClearResult) (lres : LoadResult) :
    clearHandler false cres lres = [] ∧
    requestsOf (clearHandler false cres lres) = [] ∧
    (requestsOf (clearHandler true cres lres)).head? = some clearRequest ∧
    clearRequest.method = "DELETE" ∧ clearRequest.url = "/api/feedback/clear" := by
  refine ⟨rfl, rfl, ?_, rfl, rfl⟩
  cases cres <;> simp [clearHandler, requestsOf]

/-- C1 counterexample: with the non-blank form values `"CS101"`, `"6"`,
`"Great course"` the submit handler does issue `POST /api/feedback`,
and the body's `rating` is the raw string `"6"`, which is not an
integer in the closed range [1,5]: the handler applies no integer or
range constraint to the rating. -/
theorem c1_counterexample :
    jsTrim "CS101" ≠ "" ∧ ("6" : String) ≠ "" ∧ jsTrim "Great course" ≠ "" ∧
    requestsOf (submitHandler "CS101" "6" "Great course" .httpErr (.ok [])) =
      [⟨"/api/feedback", "POST", true, some ⟨"CS101", "6", "Great course"⟩⟩] ∧
    ("6" : String) ∉ (["1", "2", "3", "4", "5"] : List String) := by decide

/-- C1 (amended): for every form submission passing the non-blank
guard, the submit handler's first issued request is
`POST /api/feedback` with a JSON body containing exactly the keys
`courseName`, `rating`, `comments`, where `courseName` and `comments`
are the trimmed form values and `rating` is the raw form string, with
no integer or range constraint applied by the frontend. -/
theorem c1_submit_request (cn r cm : String) (sres : SubmitResult) (lres : LoadResult)
    (h1 : jsTrim cn ≠ "") (h2 : r ≠ "") (h3 : jsTrim cm ≠ "") :
    (requestsOf (submitHandler cn r cm sres lres)).head? =
      some ⟨"/api/feedback", "POST", true, some ⟨jsTrim cn, r, jsTrim cm⟩⟩ := by
  simp only [submitHandler]
  rw [if_neg (by simp [h1, h2, h3])]
  cases sres <;> simp [requestsOf, submitRequest]

/-- Witness for C1 (amended) at a concrete submission. -/
theorem c1_submit_request_witness :
    (requestsOf (submitHandler "CS101" "4" "Nice" .ok (.ok []))).head? =
      some ⟨"/api/feedback", "POST", true, some ⟨"CS101", "4", "Nice"⟩⟩ :=
  c1_submit_request "CS101" "4" "Nice" .ok (.ok []) (by decide) (by decide) (by decide)

/-- C2: when `checkAuth` reports the visitor unauthenticated or the
check request fails, `init` navigates to `/login.html` and issues no
request to `/api/feedback`; and whenever `init` renders the user email
or requests the feedback list, the check reported authenticated. -/
theorem c2_auth_gate (o : CheckAuthOutcome) (l : LoadResult) :
    (authFailed o = true →
      init o l = [.fetchReq checkAuthRequest, .navigate "/login.html"] ∧
      ((requestsOf (init o l)).all fun req => req.url != "/api/feedback") = true) ∧
    ((∃ e, Effect.setText "userEmail" e ∈ init o l) ∨
        getFeedbackRequest ∈ requestsOf (init o l) →
      authFailed o = false) := by
  cases o with
  | err =>
    refine ⟨fun _ => ⟨rfl, ?_⟩, fun h => ?_⟩
    · have hr : requestsOf (init CheckAuthOutcome.err l) = [checkAuthRequest] := rfl
      rw [hr]
      decide
    exfalso
    rcases h with ⟨e, he⟩ | hg
    · simp [init, checkAuth] at he
    · simp [init, checkAuth, requestsOf, getFeedbackRequest, checkAuthRequest] at hg
  | json d =>
    obtain ⟨auth, email⟩ := d
    cases auth with
    | false =>
      refine ⟨fun _ => ⟨by simp [init, checkAuth], by simp [init, checkAuth]; decide⟩,
        fun h => ?_⟩
      exfalso
      rcases h with ⟨e, he⟩ | hg
      · simp [init, checkAuth] at he
      · simp [init, checkAuth, requestsOf, getFeedbackRequest, checkAuthRequest] at hg
    | true =>
      exact ⟨fun hf => absurd hf (by simp [authFailed]), fun _ => by simp [authFailed]⟩

/-- Witness for C2 at a concrete unauthenticated check result. -/
theorem c2_auth_gate_witness :
    init (.json ⟨false, "x@y"⟩) (.ok []) =
      [.fetchReq checkAuthRequest, .navigate "/login.html"] :=
  ((c2_auth_gate (.json ⟨false, "x@y"⟩) (.ok [])).1 (by decide)).1

/-- C4: every request any frontend handler issues — check-auth, page
initialisation, logout, feedback load, feedback submit, clear — is
sent with `credentials: 'include'`, so the session cookie accompanies
every call. -/
theorem c4_credentials_always (o : CheckAuthOutcome) (l l2 l3 l4 : LoadResult)
    (fetchThrew confirmed : Bool) (cn r cm : String) (sres : SubmitResult)
    (cres : ClearResult) :
    allCredIncluded (checkAuth o).2 = true ∧
    allCredIncluded (init o l) = true ∧
    allCredIncluded (logoutHandler fetchThrew) = true ∧
    allCredIncluded (loadFeedback l2) = true ∧
    allCredIncluded (submitHandler cn r cm sres l3) = true ∧
    allCredIncluded (clearHandler confirmed cres l4) = true := by
  refine ⟨?_, ?_, ?_, ?_, ?_, ?_⟩
  · cases o with
    | err => decide
    | json d =>
      obtain ⟨auth, email⟩ := d
      cases auth <;> simp [checkAuth, allCredIncluded, requestsOf, checkAuthRequest]
  · cases o with
    | err =>
      have hr : requestsOf (init CheckAuthOutcome.err l) = [checkAuthRequest] := rfl
      rw [allCredIncluded, hr]
      decide
    | json d =>
      obtain ⟨auth, email⟩ := d
      cases auth with
      | false => simp [init, checkAuth, allCredIncluded, requestsOf, checkAuthRequest]
      | true =>
        by_cases he : email = ""
        · simp [init, checkAuth, he, allCredIncluded, requestsOf, checkAuthRequest]
        · cases l <;>
            simp [init, checkAuth, he, loadFeedback, allCredIncluded, requestsOf,
              List.filterMap_append, checkAuthRequest, getFeedbackRequest]
  · cases fetchThrew <;> decide
  · cases l2 <;> simp [loadFeedback, allCredIncluded, requestsOf, getFeedbackRequest]
  · simp only [submitHandler]
    split
    · simp [allCredIncluded, requestsOf]
    · cases sres <;> cases l3 <;>
        simp [loadFeedback, allCredIncluded, requestsOf, List.filterMap_append,
          submitRequest, getFeedbackRequest]
  · cases confirmed <;> cases cres <;> cases l4 <;>
      simp [clearHandler, loadFeedback, allCredIncluded, requestsOf,
        List.filterMap_append, clearRequest, getFeedbackRequest]

/-- C5: a failed feedback load writes the in-list failure message, a
failed submit or clear shows an error notification, none of the three
handlers ever navigates anywhere (in any outcome), and only a failed
or negative auth check produces the redirect to the login view. -/
theorem c5_failures_local (o : CheckAuthOutcome) (cn r cm : String)
    (sres : SubmitResult) (cres : ClearResult) (l l2 l3 : LoadResult)
    (confirmed : Bool) :
    ((l = .httpErr ∨ l = .netErr) →
      loadFeedback l = [.fetchReq getFeedbackRequest, .setHTML "feedbackList" loadFailHtml]) ∧
    (jsTrim cn ≠ "" → r ≠ "" → jsTrim cm ≠ "" → sres ≠ .ok →
      submitHandler cn r cm sres l2 =
        [.fetchReq (submitRequest ⟨jsTrim cn, r, jsTrim cm⟩),
         .notify "Failed to submit feedback. Please try again." true]) ∧
    (cres ≠ .ok →
      clearHandler true cres l3 =
        [.fetchReq clearRequest, .notify "Failed to clear feedback. Please try again." true]) ∧
    noNavigate (loadFeedback l) = true ∧
    noNavigate (submitHandler cn r cm sres l2) = true ∧
    noNavigate (clearHandler confirmed cres l3) = true ∧
    (authFailed o = true → Effect.navigate "/login.html" ∈ (checkAuth o).2) := by
  refine ⟨?_, ?_, ?_, ?_, ?_, ?_, ?_⟩
  · rintro (rfl | rfl) <;> rfl
  · intro h1 h2 h3 hs
    simp only [submitHandler]
    rw [if_neg (by simp [h1, h2, h3])]
    cases sres with
    | ok => exact absurd rfl hs
    | httpErr => rfl
    | netErr => rfl
  · intro hc
    cases cres with
    | ok => exact absurd rfl hc
    | httpErr => rfl
    | netErr => rfl
  · cases l <;> simp [loadFeedback, noNavigate]
  · simp only [submitHandler]
    split
    · simp [noNavigate]
    · cases sres <;> cases l2 <;>
        simp [loadFeedback, noNavigate, List.all_append]
  · cases confirmed <;> cases cres <;> cases l3 <;>
      simp [clearHandler, loadFeedback, noNavigate, List.all_append]
  · cases o with
    | err => intro _; simp [checkAuth]
    | json d =>
      obtain ⟨auth, email⟩ := d
      cases auth with
      | false => intro _; simp [checkAuth]
      | true => intro hf; exact absurd hf (by simp [authFailed])

/-- Witness for C5: a failed clear at a concrete input produces
exactly the request and the error notification. -/
theorem c5_failures_local_witness :
    clearHandler true .netErr (.ok []) =
      [.fetchReq clearRequest, .notify "Failed to clear feedback. Please try again." true] :=
  (c5_failures_local .err "a" "b" "c" .ok .netErr (.ok []) (.ok []) (.ok [])
    true).2.2.1 (by decide)

/-- C9 counterexample: the form value `" "` for rating is empty after
trimming, yet the submit handler does not show the fill-in-all-fields
error and does issue a network request with that rating, because the
code tests the raw rating value (only `courseName` and `comments` are
trimmed). -/
theorem c9_counterexample :
    jsTrim " " = "" ∧
    submitHandler "CS101" " " "Nice" .httpErr (.ok []) =
      [.fetchReq (submitRequest ⟨"CS101", " ", "Nice"⟩),
       .notify "Failed to submit feedback. Please try again." true] ∧
    requestsOf (submitHandler "CS101" " " "Nice" .httpErr (.ok [])) ≠ [] := by decide

/-- C9 (amended): the submit handler trims `courseName` and
`comments`; if either is empty after trimming, or the raw rating value
is the empty string, it shows the fill-in-all-fields error
notification and issues no network request; when it does submit, the
body carries the trimmed `courseName` and `comments` and the raw
(untrimmed) rating. -/
theorem c9_trim_guard (cn r cm : String) (sres : SubmitResult) (lres : LoadResult) :
    (jsTrim cn = "" ∨ r = "" ∨ jsTrim cm = "" →
      submitHandler cn r cm sres lres = [.notify "Please fill in all fields" true] ∧
      requestsOf (submitHandler cn r cm sres lres) = []) ∧
    (jsTrim cn ≠ "" → r ≠ "" → jsTrim cm ≠ "" →
      (requestsOf (submitHandler cn r cm sres lres)).head? =
        some (submitRequest ⟨jsTrim cn, r, jsTrim cm⟩)) := by
  constructor
  · intro h
    have heq : submitHandler cn r cm sres lres = [.notify "Please fill in all fields" true] := by
      simp only [submitHandler]
      rw [if_pos h]
    exact ⟨heq, by rw [heq]; rfl⟩
  · intro h1 h2 h3
    simp only [submitHandler]
    rw [if_neg (by simp [h1, h2, h3])]
    cases sres <;> simp [requestsOf, submitRequest]

/-- Witness for C9 (amended): a whitespace-only course name at a
concrete input is rejected with the error notification. -/
theorem c9_trim_guard_witness :
    submitHandler "  " "4" "Nice" .ok (.ok []) = [.notify "Please fill in all fields" true] :=
  ((c9_trim_guard "  " "4" "Nice" .ok (.ok [])).1 (Or.inl (by decide))).1
